import Mathlib

/-!
Verification of the gateway connection lifecycle of the eludrs client
(src/gateway.rs), shallowly embedded in Lean 4.

The embedding translates:
  * the data model (src/models.rs and the external todel payload shapes,
    used opaquely, as the spec prescribes);
  * the cache (GatewayData, gateway.rs lines 24-28) with the HashMap
    modelled as a function from ids to optional user records;
  * the decode/dispatch loop of Events::poll_next (gateway.rs 245-317)
    as a step function over the successive results of polling the
    websocket receiver;
  * the handshake of Events::connect (gateway.rs 93-147) and of
    Events::reconect (gateway.rs 149-239), including the heartbeat task
    they spawn, as trace-producing functions over an environment that
    records what the network returns (frames received, whether each
    send succeeded, the random jitter drawn, how many pings succeed);
  * the reconnection backoff (gateway.rs 157, 225-235).
-/

namespace Eludrs

/-- Stand-in for the external todel Status model; the spec treats the
wire payload schema as opaque typed values, so only decidable equality
and the ability to clone it matter here. -/
inductive Status where
  | online
  | idle
  | busy
  | offline
deriving DecidableEq, Repr

/-- Stand-in for the external todel User record; the code only touches
the fields id (u64, modelled as Nat) and status. -/
structure User where
  id : Nat
  username : String
  status : Status
deriving DecidableEq, Repr

/-- Stand-in for the external todel Message record, carried opaquely
through MessageCreate frames. -/
structure Message where
  author : String
  content : String
deriving DecidableEq, Repr

/-- Inbound payload variants decoded from text frames
(todel ServerPayload, used by gateway.rs). Fields of RateLimit are not
inspected by the gateway code, so a single opaque numeric field stands
for them. -/
inductive ServerPayload where
  | Hello (heartbeat_interval : Nat)
  | Authenticated (user : User) (users : List User)
  | Pong
  | RateLimit (data : Nat)
  | MessageCreate (msg : Message)
  | UserUpdate (update : User)
  | PresenceUpdate (user_id : Nat) (status : Status)
deriving DecidableEq, Repr

/-- Outbound payload variants (todel ClientPayload). -/
inductive ClientPayload where
  | Authenticate (token : String)
  | Ping
deriving DecidableEq, Repr

/-- Consumer-facing events, translated from src/models.rs lines 13-26. -/
inductive Event where
  | Authenticated
  | Message (msg : Message)
  | UserUpdate (old_user : Option User) (user : User)
  | PresenceUpdate (old_status : Option Status) (user_id : Nat) (status : Status)
deriving DecidableEq, Repr

/-- Model of the HashMap from user ids to user records: a function from
ids to the optional stored record. -/
def UserMap : Type := Nat → Option User

/-- The empty user map (HashMap::default). -/
def emptyUsers : UserMap := fun _ => none

/-- HashMap::insert on the model: the stored value at the key becomes
the new record, everything else is unchanged. -/
def insertUser (m : UserMap) (k : Nat) (v : User) : UserMap :=
  fun k2 => if k2 = k then some v else m k2

/-- The for_each insert loop of the Authenticated arm
(gateway.rs 260-262): fold HashMap::insert over the known_users list,
keyed by each record's id. -/
def insertAll (m : UserMap) (l : List User) : UserMap :=
  l.foldl (fun acc u => insertUser acc u.id u) m

/-- GatewayData (gateway.rs 24-28): the session cache of the current
user and the map of known users. -/
structure GatewayData where
  user : Option User
  users : UserMap

/-- GatewayData::default: no current user, empty user map. -/
def GatewayData.default : GatewayData :=
  { user := none, users := emptyUsers }

/-- Websocket messages as poll_next distinguishes them: a text frame is
carried together with the result of serde_json::from_str on its body
(none models a body that fails to decode into a ServerPayload); close
frames and every other frame kind (binary, ws-level ping/pong) are kept
as the remaining match arms of gateway.rs 251-299. -/
inductive WSMessage where
  | text (decoded : Option ServerPayload)
  | close
  | binary
  | wsping
  | wspong
deriving DecidableEq, Repr

/-- One result of polling the inner websocket receiver
(rx.poll_next_unpin at gateway.rs 250): Ready(Some(Ok(msg))),
Ready(Some(Err(_))), Ready(None), or Pending. -/
inductive RxPoll where
  | ready_some_ok (msg : WSMessage)
  | ready_some_err
  | ready_none
  | pending
deriving DecidableEq, Repr

/-- A value poll_next can return: Poll::Ready(Some(event)),
Poll::Ready(None) (end of stream), or Poll::Pending; the Boolean on
pending records whether Events::reconect was spawned before returning
Pending. -/
inductive PollResult where
  | ready_some (e : Event)
  | ready_none
  | pending (reconnecting : Bool)
deriving DecidableEq, Repr

/-- Outcome of one iteration of the poll_next loop body: either the
loop terminates with a result (break or return), or it continues with
the possibly-updated cache. -/
inductive StepOut where
  | yield (r : PollResult) (d : GatewayData)
  | continue_loop (d : GatewayData)

/-- Cache carried by a step outcome. -/
def StepOut.data : StepOut → GatewayData
  | .yield _ d => d
  | .continue_loop d => d

/-- One iteration of the loop body of Events::poll_next
(gateway.rs 246-316), given the cache and the result of polling the
receiver. Translated arm by arm:
Text frames are decoded; Pong, RateLimit and Hello do nothing;
Authenticated sets the current user and inserts every known user;
MessageCreate yields the message; UserUpdate inserts the new record and
yields the previous one; PresenceUpdate reads the cached status without
writing; Close and Ready(None) spawn Events::reconect and return
Pending; Pending returns Pending; Ready(Some(Err)) and non-text frames
fall to the catch-all arms and the loop continues. -/
def pollStep (d : GatewayData) (p : RxPoll) : StepOut :=
  match p with
  | .ready_some_ok m =>
    match m with
    | .text dec =>
      match dec with
      | some payload =>
        match payload with
        | .Pong => .continue_loop d
        | .RateLimit _ => .continue_loop d
        | .Hello _ => .continue_loop d
        | .Authenticated user users =>
            .yield (.ready_some .Authenticated)
              { user := some user, users := insertAll d.users users }
        | .MessageCreate msg =>
            .yield (.ready_some (.Message msg)) d
        | .UserUpdate update =>
            .yield (.ready_some (.UserUpdate (d.users update.id) update))
              { d with users := insertUser d.users update.id update }
        | .PresenceUpdate user_id status =>
            .yield
              (.ready_some
                (.PresenceUpdate ((d.users user_id).map User.status) user_id status))
              d
      | none => .continue_loop d
    | .close => .yield (.pending true) d
    | .binary => .continue_loop d
    | .wsping => .continue_loop d
    | .wspong => .continue_loop d
  | .pending => .yield (.pending false) d
  | .ready_none => .yield (.pending true) d
  | .ready_some_err => .continue_loop d

/-- The poll_next loop over the successive receiver poll results, with
the receiver present; none means the supplied trace ended before the
loop terminated (the real loop would still be polling). -/
def pollLoop (d : GatewayData) : List RxPoll → Option (PollResult × GatewayData)
  | [] => none
  | p :: ps =>
    match pollStep d p with
    | .yield r d2 => some (r, d2)
    | .continue_loop d2 => pollLoop d2 ps

/-- Events::poll_next (gateway.rs 245-317): when the receiver slot is
empty (mid-reconnect) the loop body polls nothing and the function
produces no result; otherwise it runs the loop. -/
def poll_next (rxPresent : Bool) (d : GatewayData) (ps : List RxPoll) :
    Option (PollResult × GatewayData) :=
  if rxPresent then pollLoop d ps else none

/-- Backoff update of Events::reconect (gateway.rs 232-234): after
sleeping, the wait doubles while it is below 64 and stays put
otherwise. -/
def next_wait (w : Nat) : Nat :=
  if w < 64 then w * 2 else w

/-- Wait slept before the (n+1)-th reconnection attempt: the initial
wait is 1 (gateway.rs 157) and each failure applies next_wait. -/
def waitSeq : Nat → Nat
  | 0 => 1
  | n + 1 => next_wait (waitSeq n)

/-- Observable actions of a session's handshake and heartbeat task, in
the order the code performs them: the random jitter sleep, the
Authenticate send, each Ping send, the fixed-interval sleep after a
successful Ping, and the Ping send that fails (after which the task
breaks out of its loop and stops). -/
inductive Action where
  | sleepJitter (d : Nat)
  | sendAuthenticate
  | sendPing
  | sleepInterval (d : Nat)
  | sendPingFail
deriving DecidableEq, Repr

/-- Whether an action is the jitter sleep. -/
def Action.isJitterSleep : Action → Bool
  | .sleepJitter _ => true
  | _ => false

/-- Trace of the spawned heartbeat loop (gateway.rs 121-136 and
189-211): send Ping, on success sleep heartbeat_interval and repeat;
k is the number of sends that succeed before one fails, at which point
the task logs and breaks. -/
def hbRun (interval : Nat) : Nat → List Action
  | 0 => [.sendPingFail]
  | k + 1 => .sendPing :: .sleepInterval interval :: hbRun interval k

/-- One result of rx.next() in the awaiting-Hello loop of
Events::connect (gateway.rs 101-143): a text frame carrying its decode
result, or anything else (close, error, end of stream, non-text), which
makes connect bail with a missing-HELLO error. -/
inductive InMsg where
  | textFrame (decoded : Option ServerPayload)
  | otherMsg
deriving DecidableEq, Repr

/-- Result of Events::connect: an error returned to the caller (bail!),
or success carrying the linearized trace of the handshake actions and
of the heartbeat task it spawned. -/
inductive ConnectResult where
  | err (reasonTag : String)
  | ok (sessionTrace : List Action)
deriving DecidableEq, Repr

/-- The awaiting-Hello loop of Events::connect, parametrized by the
environment: whether the Authenticate send will succeed, the jitter
value drawn by gen_range(0..heartbeat_interval), and how many heartbeat
Pings will succeed. Text frames that do not decode to Hello are
skipped; on Hello the code sleeps the jitter, sends Authenticate
(bailing to the caller if that send fails), and spawns the heartbeat
task; any non-text result makes it bail. none means the supplied trace
ended while the loop was still reading. -/
def connectLoop (authOk : Bool) (jitter okPings : Nat) :
    List InMsg → Option ConnectResult
  | [] => none
  | .textFrame (some (.Hello i)) :: _ =>
      if authOk then
        some (.ok (.sleepJitter jitter :: .sendAuthenticate :: hbRun i okPings))
      else some (.err "authenticate")
  | .textFrame _ :: rest => connectLoop authOk jitter okPings rest
  | .otherMsg :: _ => some (.err "hello")

/-- Environment of one Events::connect run: whether connect_async
succeeds, the frames then read, whether the Authenticate send succeeds,
the jitter drawn, and how many heartbeat Pings succeed. -/
structure ConnectEnv where
  connOk : Bool
  frames : List InMsg
  authOk : Bool
  jitter : Nat
  okPings : Nat

/-- Events::connect (gateway.rs 93-147): abort any previous ping task,
connect (propagating a connect_async error to the caller), then run the
awaiting-Hello loop. -/
def connect (env : ConnectEnv) : Option ConnectResult :=
  if env.connOk then connectLoop env.authOk env.jitter env.okPings env.frames
  else some (.err "connect")

/-- One result of new_rx.next() in the inner loop of Events::reconect
(gateway.rs 166-219): a text frame decoding to Hello (together with
whether the Authenticate send attempted on it succeeds), a text frame
not decoding to Hello (skipped, keep reading), or anything else (the
else branch: log and continue the outer loop). -/
inductive FrameEv where
  | helloFrame (interval : Nat) (authOk : Bool)
  | otherText
  | notText
deriving DecidableEq, Repr

/-- Outcome of the inner frame-reading loop of one connected reconnect
attempt: a session is installed with this heartbeat interval, or the
outer loop is continued (non-text result), or the supplied frames ran
out while the loop was still reading. -/
inductive FramesOutcome where
  | success (interval : Nat)
  | continueOuter
  | blocked
deriving DecidableEq, Repr

/-- The inner loop of a connected reconnect attempt: a Hello whose
Authenticate send succeeds installs the session; a Hello whose
Authenticate send fails is logged and the loop keeps reading
(the continue at gateway.rs 182); other text frames are skipped; a
non-text result continues the outer loop without any backoff sleep. -/
def processFrames : List FrameEv → FramesOutcome
  | [] => .blocked
  | .helloFrame i true :: _ => .success i
  | .helloFrame _ false :: rest => processFrames rest
  | .otherText :: rest => processFrames rest
  | .notText :: _ => .continueOuter

/-- State of an Events value as reconnection sees it: the GatewayData
cache behind the data mutex, whether the rx slot holds a receiver, and
whether the ping slot holds a running heartbeat task. Events::reconect
receives clones of the rx, ping and rng handles only (gateway.rs
149-156); the data mutex is not among its parameters. -/
structure EventsState where
  data : GatewayData
  rxPresent : Bool
  pingActive : Bool

/-- One outer-loop attempt of Events::reconect: none models a
connect_async error (backoff sleep, then retry); some fs models a
successful connection whose inner loop reads the frame results fs. -/
structure Attempt where
  conn : Option (List FrameEv)

/-- Result of an Events::reconect run: the backoff sleeps it performed,
the installed session (heartbeat interval and linearized action trace
of authenticate plus the spawned jitter-then-ping task) if one was
installed, and the final Events state. -/
structure ReconectResult where
  sleeps : List Nat
  session : Option (Nat × List Action)
  state : EventsState

/-- The outer loop of Events::reconect (gateway.rs 162-237), starting
from the given wait: a failed connection sleeps the current wait and
retries with next_wait applied; a connected attempt runs the inner
loop; success installs the new receiver and ping task (sending
Authenticate first, then spawning the task that sleeps the jitter and
pings, gateway.rs 172-212); a continue-outer retries immediately
without sleeping and without changing the wait. -/
def reconectRun (st : EventsState) (jitter okPings : Nat) (wait : Nat) :
    List Attempt → ReconectResult
  | [] => { sleeps := [], session := none, state := st }
  | a :: rest =>
    match a.conn with
    | none =>
      { sleeps := wait :: (reconectRun st jitter okPings (next_wait wait) rest).sleeps
        session := (reconectRun st jitter okPings (next_wait wait) rest).session
        state := (reconectRun st jitter okPings (next_wait wait) rest).state }
    | some fs =>
      match processFrames fs with
      | .success i =>
          { sleeps := []
            session := some (i, .sendAuthenticate :: .sleepJitter jitter :: hbRun i okPings)
            state := { st with rxPresent := true, pingActive := true } }
      | .continueOuter => reconectRun st jitter okPings wait rest
      | .blocked => { sleeps := [], session := none, state := st }

/-- Events::reconect (gateway.rs 149-239): abort the previous ping task
(gateway.rs 158-161), then run the outer loop with the initial wait of
1 (gateway.rs 157). The GatewayData cache is not among its inputs. -/
def reconect (st : EventsState) (jitter okPings : Nat) (attempts : List Attempt) :
    ReconectResult :=
  reconectRun { st with pingActive := false } jitter okPings 1 attempts

/-! Helper lemmas. -/

/-- Closed form of the backoff sequence: the n-th wait is 2 to the n,
capped at 64. -/
theorem waitSeq_eq (n : Nat) : waitSeq n = min (2 ^ n) 64 := by
  induction n with
  | zero => simp [waitSeq]
  | succ n ih =>
    rw [waitSeq, ih, next_wait]
    by_cases h : 2 ^ n < 64
    · have hn : n < 6 := by
        by_contra hn6
        have h64 : (64 : Nat) ≤ 2 ^ n := by
          calc (64 : Nat) = 2 ^ 6 := by norm_num
          _ ≤ 2 ^ n := Nat.pow_le_pow_right (by norm_num) (by omega)
        omega
      have h2 : 2 ^ (n + 1) ≤ 64 := by
        calc 2 ^ (n + 1) ≤ 2 ^ 6 := Nat.pow_le_pow_right (by norm_num) (by omega)
        _ = 64 := by norm_num
      rw [min_eq_left (le_of_lt h), if_pos h, min_eq_left h2, pow_succ]
    · have h2 : 64 ≤ 2 ^ (n + 1) := by
        calc (64 : Nat) ≤ 2 ^ n := by omega
        _ ≤ 2 ^ (n + 1) := Nat.pow_le_pow_right (by norm_num) (by omega)
      rw [min_eq_right (by omega), if_neg (by omega), min_eq_right h2]

/-- Backoff sleeps over n consecutive failed connection attempts,
starting from the m-th wait. -/
theorem reconectRun_sleeps (n : Nat) : ∀ (st : EventsState) (j k m : Nat),
    (reconectRun st j k (waitSeq m) (List.replicate n ⟨none⟩)).sleeps
      = (List.range n).map (fun i => waitSeq (m + i)) := by
  induction n with
  | zero => intro st j k m; rfl
  | succ n ih =>
    intro st j k m
    have hstep :
        (reconectRun st j k (waitSeq m) (List.replicate (n + 1) ⟨none⟩)).sleeps
          = waitSeq m ::
            (reconectRun st j k (waitSeq (m + 1)) (List.replicate n ⟨none⟩)).sleeps := rfl
    rw [hstep, ih st j k (m + 1), List.range_succ_eq_map, List.map_cons, List.map_map]
    refine congrArg₂ _ (by simp) ?_
    refine List.map_congr_left fun a _ => ?_
    simp only [Function.comp_apply]
    congr 1
    omega

/-- The step function of the poll_next loop never yields
Poll::Ready(None). -/
theorem pollStep_no_ready_none (d : GatewayData) (p : RxPoll) (r : PollResult)
    (d2 : GatewayData) (h : pollStep d p = .yield r d2) : r ≠ PollResult.ready_none := by
  cases p with
  | ready_some_ok m =>
    cases m with
    | text dec =>
      cases dec with
      | some payload =>
        cases payload <;> simp only [pollStep, StepOut.yield.injEq] at h <;>
          first
          | exact StepOut.noConfusion h
          | (cases h.1; simp)
      | none => exact StepOut.noConfusion h
    | close =>
      simp only [pollStep, StepOut.yield.injEq] at h
      cases h.1; simp
    | binary => exact StepOut.noConfusion h
    | wsping => exact StepOut.noConfusion h
    | wspong => exact StepOut.noConfusion h
  | ready_some_err => exact StepOut.noConfusion h
  | ready_none =>
    simp only [pollStep, StepOut.yield.injEq] at h
    cases h.1; simp
  | pending =>
    simp only [pollStep, StepOut.yield.injEq] at h
    cases h.1; simp

/-- The poll_next loop never terminates with Poll::Ready(None). -/
theorem pollLoop_no_end : ∀ (ps : List RxPoll) (d : GatewayData) (r : PollResult)
    (d2 : GatewayData), pollLoop d ps = some (r, d2) → r ≠ PollResult.ready_none := by
  intro ps
  induction ps with
  | nil => intro d r d2 h; simp [pollLoop] at h
  | cons p ps ih =>
    intro d r d2 h
    cases hstep : pollStep d p with
    | yield r0 d0 =>
      simp only [pollLoop] at h
      rw [hstep] at h
      simp only [Option.some.injEq, Prod.mk.injEq] at h
      obtain ⟨h1, h2⟩ := h
      exact pollStep_no_ready_none d p r d2 (by rw [hstep, h1, h2])
    | continue_loop d0 =>
      simp only [pollLoop] at h
      rw [hstep] at h
      exact ih d0 r d2 h

/-- Keys outside the inserted ids keep their previous value. -/
theorem insertAll_not_mem (l : List User) : ∀ (m : UserMap) (k : Nat),
    k ∉ l.map User.id → insertAll m l k = m k := by
  induction l with
  | nil => intro m k _; rfl
  | cons u0 l ih =>
    intro m k hk
    simp only [List.map_cons, List.mem_cons] at hk
    push_neg at hk
    show insertAll (insertUser m u0.id u0) l k = m k
    rw [ih _ k hk.2]
    simp [insertUser, hk.1]

/-- Every inserted id is present afterwards. -/
theorem insertAll_mem_isSome (l : List User) : ∀ (m : UserMap) (k : Nat),
    k ∈ l.map User.id → (insertAll m l k).isSome = true := by
  induction l with
  | nil => intro m k hk; simp at hk
  | cons u0 l ih =>
    intro m k hk
    by_cases hmem : k ∈ l.map User.id
    · show (insertAll (insertUser m u0.id u0) l k).isSome = true
      exact ih _ k hmem
    · have hk0 : k = u0.id := by
        simp only [List.map_cons, List.mem_cons] at hk
        tauto
      show (insertAll (insertUser m u0.id u0) l k).isSome = true
      rw [insertAll_not_mem l _ k hmem]
      simp [insertUser, hk0]

/-- The heartbeat trace is never empty. -/
theorem hbRun_ne_nil (i k : Nat) : hbRun i k ≠ [] := by
  cases k <;> simp [hbRun]

/-- The heartbeat trace ends at the failed Ping send. -/
theorem hbRun_getLast (i : Nat) : ∀ k, (hbRun i k).getLast? = some Action.sendPingFail := by
  intro k
  induction k with
  | zero => rfl
  | succ k ih =>
    show (Action.sendPing :: Action.sleepInterval i :: hbRun i k).getLast? = _
    rw [List.getLast?_cons_cons]
    cases hk : hbRun i k with
    | nil => exact absurd hk (hbRun_ne_nil i k)
    | cons c cs =>
      rw [List.getLast?_cons_cons, ← hk]
      exact ih

/-- Closed form of the heartbeat trace: k successful Ping-then-sleep
rounds followed by the failing Ping send. -/
theorem hbRun_closed (i : Nat) : ∀ k, hbRun i k
    = (List.replicate k [Action.sendPing, Action.sleepInterval i]).flatten
      ++ [Action.sendPingFail] := by
  intro k
  induction k with
  | zero => rfl
  | succ k ih => simp [hbRun, List.replicate_succ, ih]

/-- The outer loop of reconect never touches the GatewayData cache. -/
theorem reconectRun_data : ∀ (attempts : List Attempt) (st : EventsState) (j k w : Nat),
    (reconectRun st j k w attempts).state.data = st.data := by
  intro attempts
  induction attempts with
  | nil => intro st j k w; rfl
  | cons a rest ih =>
    intro st j k w
    obtain ⟨conn⟩ := a
    cases conn with
    | none => exact ih st j k (next_wait w)
    | some fs =>
      cases hp : processFrames fs with
      | success i => simp [reconectRun, hp]
      | continueOuter =>
        have hred : reconectRun st j k w (⟨some fs⟩ :: rest) = reconectRun st j k w rest := by
          simp [reconectRun, hp]
        rw [hred]
        exact ih st j k w
      | blocked => simp [reconectRun, hp]

/-- The awaiting-Hello loop of connect skips frames that do not decode
to a payload. -/
theorem connectLoop_skip (authOk : Bool) (j k : Nat) : ∀ (m : Nat) (rest : List InMsg),
    connectLoop authOk j k (List.replicate m (.textFrame none) ++ rest)
      = connectLoop authOk j k rest := by
  intro m
  induction m with
  | zero => intro rest; rfl
  | succ m ih =>
    intro rest
    show connectLoop authOk j k (List.replicate m (.textFrame none) ++ rest)
      = connectLoop authOk j k rest
    exact ih rest

/-! Concrete values used by counterexamples and witnesses. -/

/-- A concrete user with id 1. -/
def u1 : User := { id := 1, username := "uwuki", status := .online }

/-- A concrete user with id 2. -/
def u2 : User := { id := 2, username := "bird", status := .idle }

/-- A concrete user with id 5, standing for a record cached before the
payload under consideration. -/
def u5 : User := { id := 5, username := "stale", status := .offline }

/-- A cache already holding user id 5. -/
def cacheWith5 : GatewayData := { user := none, users := insertUser emptyUsers 5 u5 }

/-- An Events state whose cache holds a current user and user id 5,
as it stands right before a reconnect. -/
def st5 : EventsState :=
  { data := { user := some u1, users := insertUser emptyUsers 5 u5 }
    rxPresent := true
    pingActive := true }

/-! Claim theorems. -/

/-- C1: in Events::reconect, over n consecutive failed reconnection
attempts the backoff sleeps are exactly waitSeq 0, ..., waitSeq (n-1),
where waitSeq m = min(2^m, 64) — the sequence 1,2,4,8,16,32,64,64,...;
the sequence is monotonically non-decreasing and bounded above by 64,
and the sleeps do not depend on the rng jitter argument, so no jitter
is applied to reconnection backoff. -/
theorem backoff_policy :
    (∀ (st : EventsState) (j k n : Nat),
        (reconect st j k (List.replicate n ⟨none⟩)).sleeps = (List.range n).map waitSeq)
    ∧ (∀ n, waitSeq n = min (2 ^ n) 64)
    ∧ (∀ n, waitSeq n ≤ waitSeq (n + 1))
    ∧ (∀ n, waitSeq n ≤ 64) := by
  refine ⟨?_, waitSeq_eq, ?_, ?_⟩
  · intro st j k n
    have h := reconectRun_sleeps n { st with pingActive := false } j k 0
    simpa [reconect] using h
  · intro n
    rw [waitSeq_eq, waitSeq_eq]
    exact min_le_min (Nat.pow_le_pow_right (by norm_num) (by omega)) le_rfl
  · intro n
    rw [waitSeq_eq]
    exact min_le_right _ _

/-- C2 (amended): the event stream never self-terminates — poll_next
never returns Poll::Ready(None); a Close frame and an exhausted socket
stream (Ready(None) from the receiver) both spawn Events::reconect and
return Poll::Pending; but a receive error (Ready(Some(Err))) is
skipped by the catch-all arm and polling continues, rather than
launching reconnection there. -/
theorem stream_never_ends :
    (∀ (rxp : Bool) (d : GatewayData) (ps : List RxPoll) (r : PollResult) (d2 : GatewayData),
        poll_next rxp d ps = some (r, d2) → r ≠ PollResult.ready_none)
    ∧ (∀ d : GatewayData, pollStep d (.ready_some_ok .close) = .yield (.pending true) d)
    ∧ (∀ d : GatewayData, pollStep d .ready_none = .yield (.pending true) d)
    ∧ (∀ d : GatewayData, pollStep d .ready_some_err = .continue_loop d) := by
  refine ⟨?_, fun d => rfl, fun d => rfl, fun d => rfl⟩
  intro rxp d ps r d2 h
  cases rxp with
  | false => simp [poll_next] at h
  | true =>
    simp only [poll_next, if_true] at h
    exact pollLoop_no_end ps d r d2 h

/-- C2 witness: a concrete poll returning Pending, which is not
Ready(None). -/
theorem stream_never_ends_witness :
    PollResult.pending false ≠ PollResult.ready_none :=
  stream_never_ends.1 true GatewayData.default [RxPoll.pending] (PollResult.pending false)
    GatewayData.default rfl

/-- C2 counterexample: after a receive error the loop body continues
(the catch-all arm) instead of spawning reconnection and returning
Pending; the Pending eventually returned comes from the next receiver
poll and carries no reconnection spawn (pending false). -/
theorem receive_error_skipped :
    pollStep GatewayData.default RxPoll.ready_some_err
        = StepOut.continue_loop GatewayData.default
    ∧ pollLoop GatewayData.default [RxPoll.ready_some_err, RxPoll.pending]
        = some (PollResult.pending false, GatewayData.default)
    ∧ PollResult.pending false ≠ PollResult.pending true :=
  ⟨rfl, rfl, by decide⟩

/-- C3: a text frame whose body fails to decode into a ServerPayload is
skipped — the loop body continues with the cache unchanged, no event is
yielded for the frame, no error reaches the consumer, and polling
proceeds exactly as if the frame were absent. -/
theorem undecodable_frame_skipped (d : GatewayData) (ps : List RxPoll) :
    pollStep d (.ready_some_ok (.text none)) = .continue_loop d
    ∧ pollLoop d (.ready_some_ok (.text none) :: ps) = pollLoop d ps :=
  ⟨rfl, rfl⟩

/-- C4 counterexample: processing Authenticated{u1, [u2]} over a cache
that already holds user id 5 leaves id 5 in the user map although 5 is
not among the known_users ids, so afterwards the map does not contain
exactly the ids occurring in known_users. -/
theorem authenticated_keeps_stale_ids :
    (pollStep cacheWith5
        (.ready_some_ok (.text (some (.Authenticated u1 [u2]))))).data.users 5 = some u5
    ∧ 5 ∉ [u2].map User.id :=
  ⟨rfl, by decide⟩

/-- C4 (amended): processing an Authenticated{user, known_users}
payload yields Event::Authenticated, sets the cache's current user to
user, and folds HashMap::insert of every known user into the existing
map: every id occurring in known_users is present afterwards, ids
outside known_users keep their previous value (they are not removed),
and when the prior map is empty the map afterwards contains exactly the
ids occurring in known_users. -/
theorem authenticated_updates_cache (d : GatewayData) (u : User) (l : List User) :
    pollStep d (.ready_some_ok (.text (some (.Authenticated u l)))) =
      .yield (.ready_some .Authenticated) { user := some u, users := insertAll d.users l }
    ∧ (∀ k, k ∉ l.map User.id → insertAll d.users l k = d.users k)
    ∧ (∀ k, k ∈ l.map User.id → (insertAll d.users l k).isSome = true)
    ∧ (∀ k v, insertAll emptyUsers l k = some v → k ∈ l.map User.id) := by
  refine ⟨rfl, fun k hk => insertAll_not_mem l d.users k hk,
    fun k hk => insertAll_mem_isSome l d.users k hk, fun k v hkv => ?_⟩
  by_contra hmem
  rw [insertAll_not_mem l emptyUsers k hmem] at hkv
  exact Option.noConfusion hkv

/-- C4 witness: concrete instances of the amended cache facts over a
cache holding id 5, with known_users = [u2]. -/
theorem authenticated_updates_cache_witness :
    insertAll cacheWith5.users [u2] 7 = cacheWith5.users 7
    ∧ (insertAll cacheWith5.users [u2] 2).isSome = true :=
  ⟨(authenticated_updates_cache cacheWith5 u1 [u2]).2.1 7 (by decide),
   (authenticated_updates_cache cacheWith5 u1 [u2]).2.2.1 2 (by decide)⟩

/-- C5: processing a UserUpdate payload carrying record u yields
Event::UserUpdate with old_user equal to the user map's value at u.id
before the update (None when u.id was absent) and user equal to u, and
afterwards the map's value at u.id is u. -/
theorem user_update_old_and_new (d : GatewayData) (u : User) :
    pollStep d (.ready_some_ok (.text (some (.UserUpdate u)))) =
      .yield (.ready_some (.UserUpdate (d.users u.id) u))
        { d with users := insertUser d.users u.id u }
    ∧ insertUser d.users u.id u u.id = some u :=
  ⟨rfl, by simp [insertUser]⟩

/-- C6 counterexample: after a reconnect that installs a new session,
the cache still holds the pre-reconnect current user u1 and the
pre-reconnect map entry for id 5, instead of being None and empty. -/
theorem reconect_cache_not_fresh :
    (reconect st5 3 0 [⟨some [.helloFrame 100 true]⟩]).session.isSome = true
    ∧ (reconect st5 3 0 [⟨some [.helloFrame 100 true]⟩]).state.data.user = some u1
    ∧ (reconect st5 3 0 [⟨some [.helloFrame 100 true]⟩]).state.data.users 5 = some u5 :=
  ⟨rfl, rfl, rfl⟩

/-- C6 (amended): the GatewayData cache is not rebuilt on reconnect —
Events::reconect receives only the rx, ping and rng handles and leaves
the cache exactly as it was, so cache entries from before the reconnect
are preserved until later payloads overwrite them. -/
theorem reconect_preserves_cache (st : EventsState) (j k : Nat) (attempts : List Attempt) :
    (reconect st j k attempts).state.data = st.data :=
  reconectRun_data attempts { st with pingActive := false } j k 1

/-- C7 counterexample: in the initial Events::connect, a failing
Authenticate send makes connect return an error to the caller (the
bail at gateway.rs 118), so this send failure does surface. -/
theorem connect_auth_failure_errors :
    connect { connOk := true, frames := [.textFrame (some (.Hello 100))],
              authOk := false, jitter := 5, okPings := 0 }
      = some (.err "authenticate") :=
  rfl

/-- C7 (amended): a heartbeat Ping send failure only ends the heartbeat
task's trace (the task breaks and stops) and never changes connect's
successful result; during reconnection an Authenticate send failure is
absorbed — the inner loop keeps reading for another Hello and the
attempt proceeds exactly as without that frame; but during the initial
connect an Authenticate send failure is returned as an error to the
caller. -/
theorem send_failure_handling :
    (∀ (i j k : Nat) (rest : List InMsg),
        connectLoop false j k (.textFrame (some (.Hello i)) :: rest)
          = some (.err "authenticate"))
    ∧ (∀ (i : Nat) (fs : List FrameEv),
        processFrames (.helloFrame i false :: fs) = processFrames fs)
    ∧ (∀ (st : EventsState) (j k w i : Nat) (fs : List FrameEv) (rest : List Attempt),
        reconectRun st j k w (⟨some (.helloFrame i false :: fs)⟩ :: rest)
          = reconectRun st j k w (⟨some fs⟩ :: rest))
    ∧ (∀ (i j k : Nat) (rest : List InMsg),
        connectLoop true j k (.textFrame (some (.Hello i)) :: rest)
          = some (.ok (.sleepJitter j :: .sendAuthenticate :: hbRun i k)))
    ∧ (∀ (i k : Nat), (hbRun i k).getLast? = some Action.sendPingFail) :=
  ⟨fun _ _ _ _ => rfl, fun _ _ => rfl, fun _ _ _ _ _ _ _ => rfl,
   fun _ _ _ _ => rfl, fun i k => hbRun_getLast i k⟩

/-- C8 counterexample: in a session installed by Events::reconect, the
first action is the Authenticate send, not the jitter sleep — the
reconnect handshake sends Authenticate before the spawned heartbeat
task sleeps the jitter. -/
theorem reconnect_session_auth_first :
    (reconect st5 5 0 [⟨some [.helloFrame 100 true]⟩]).session
        = some (100, [.sendAuthenticate, .sleepJitter 5, .sendPingFail])
    ∧ ((reconect st5 5 0 [⟨some [.helloFrame 100 true]⟩]).session.map
        (fun s => s.2.head?.map Action.isJitterSleep)) = some (some false) :=
  ⟨rfl, rfl⟩

/-- C8 (amended): with jitter j drawn from [0, heartbeat_interval), a
session installed by the initial connect performs the jitter sleep,
then the Authenticate send, then the first Ping, then one Ping after
each sleep of exactly heartbeat_interval until a send fails; a session
installed by Events::reconect performs the same schedule except that
the Authenticate send comes before the jitter sleep. -/
theorem heartbeat_schedule (i j k m : Nat) (st : EventsState) (rest : List Attempt)
    (_h : j < i) :
    connectLoop true j k
        (List.replicate m (.textFrame none) ++ [.textFrame (some (.Hello i))])
      = some (.ok (.sleepJitter j :: .sendAuthenticate :: hbRun i k))
    ∧ (reconect st j k (⟨some [.helloFrame i true]⟩ :: rest)).session
      = some (i, .sendAuthenticate :: .sleepJitter j :: hbRun i k)
    ∧ hbRun i k
      = (List.replicate k [Action.sendPing, Action.sleepInterval i]).flatten
        ++ [Action.sendPingFail] := by
  refine ⟨?_, rfl, hbRun_closed i k⟩
  rw [connectLoop_skip true j k m]
  rfl

/-- C8 witness: the schedule at interval 100, jitter 5, one successful
ping, one skipped frame before the Hello. -/
theorem heartbeat_schedule_witness :
    connectLoop true 5 1
        (List.replicate 1 (.textFrame none) ++ [.textFrame (some (.Hello 100))])
      = some (.ok (.sleepJitter 5 :: .sendAuthenticate :: hbRun 100 1)) :=
  (heartbeat_schedule 100 5 1 1
      { data := GatewayData.default, rxPresent := false, pingActive := false } []
      (by decide)).1

/-- C9: Pong, RateLimit and Hello payloads decoded after the handshake
are consumed internally — the loop body continues with the cache
unchanged and polling proceeds exactly as if the frame were absent, so
none of the three ever surfaces as a consumer Event. -/
theorem internal_payloads_not_surfaced (d : GatewayData) (ps : List RxPoll) (n m : Nat) :
    pollStep d (.ready_some_ok (.text (some .Pong))) = .continue_loop d
    ∧ pollStep d (.ready_some_ok (.text (some (.RateLimit n)))) = .continue_loop d
    ∧ pollStep d (.ready_some_ok (.text (some (.Hello m)))) = .continue_loop d
    ∧ pollLoop d (.ready_some_ok (.text (some .Pong)) :: ps) = pollLoop d ps
    ∧ pollLoop d (.ready_some_ok (.text (some (.RateLimit n))) :: ps) = pollLoop d ps
    ∧ pollLoop d (.ready_some_ok (.text (some (.Hello m))) :: ps) = pollLoop d ps :=
  ⟨rfl, rfl, rfl, rfl, rfl, rfl⟩

/-- C10: processing a PresenceUpdate{user_id, status} payload leaves
the GatewayData cache entirely unchanged and yields
Event::PresenceUpdate whose old_status is the status field of the
cached record at user_id (None when user_id is absent, as it is in the
empty map). -/
theorem presence_update_reads_cache (d : GatewayData) (uid : Nat) (s : Status) :
    pollStep d (.ready_some_ok (.text (some (.PresenceUpdate uid s)))) =
      .yield (.ready_some (.PresenceUpdate ((d.users uid).map User.status) uid s)) d
    ∧ (emptyUsers uid).map User.status = none :=
  ⟨rfl, rfl⟩

end Eludrs
